import Mathlib

/-!
Shallow embedding of the TOU optimizer core
(`src/ecogrid/optimization/tou_optimizer.py`) and proofs about it.

Floating-point numbers are modelled as rationals (ℚ); numpy arrays as
lists of rationals.  The external MILP solver (`pulp`) is modelled as an
abstract `SolverOutcome`: the status string it reports and the variable
values it returns (`varValue or 0` becomes `List.getD · 0`, so a missing
value reads as `0`, matching `None or 0`).  Lines 184-185 of the source
compute `wind_schedule` and `soc_schedule`, but neither flows into the
returned `OptimizationResult`, so they are omitted here.
-/

namespace EcoGrid

/-- The fields of `ecogrid.config.settings` read by the optimizer
(defaults from `src/ecogrid/config/settings.py`, lines 77-93). -/
structure Settings where
  battery_capacity_kwh : ℚ
  max_contract_capacity_kw : ℚ
  summer_peak_rate : ℚ
  summer_off_peak_rate : ℚ
deriving DecidableEq

/-- Default settings values: battery 100 kWh, contract 500 kW,
summer peak rate 9.34 NTD/kWh, summer off-peak rate 2.29 NTD/kWh. -/
def defaultSettings : Settings :=
  { battery_capacity_kwh := 100
  , max_contract_capacity_kw := 500
  , summer_peak_rate := 934/100
  , summer_off_peak_rate := 229/100 }

/-- A recommendation entry.  The source emits formatted strings; each
constructor records which rule fired and the numeric payload of the
string (rule order: lines 249-291, baseline line 240, default line 293). -/
inductive Recommendation where
  | peakReduction (firstHour lastHourPlusOne : Nat) (percent : ℚ)
  | batteryContribution (totalDischargeKwh : ℚ)
  | solarUtilization (percent : ℚ) (suggestExpansion : Bool)
  | peakShaving (percent : ℚ)
  | offPeakCharging (firstHour lastHourPlusOne : Nat) (amountKwh : ℚ)
  | installStorage
  | defaultEntry
deriving DecidableEq

/-- `OptimizationResult` dataclass (source lines 24-36). -/
structure OptimizationResult where
  status : String
  total_cost : ℚ
  baseline_cost : ℚ
  savings : ℚ
  savings_percent : ℚ
  battery_schedule : List ℚ
  grid_consumption : List ℚ
  solar_utilization : List ℚ
  peak_reduction : ℚ
  recommendations : List Recommendation
deriving DecidableEq

/-- The values the external MILP solver hands back after `prob.solve`:
the status string and the per-variable `varValue` lists (a value the
solver did not set is read as `0`, as `varValue or 0` does). -/
structure SolverOutcome where
  status : String
  grid_buy : List ℚ
  battery_charge : List ℚ
  battery_discharge : List ℚ
  solar_used : List ℚ
  objective : ℚ
deriving DecidableEq

/-- `sum(xs[t] * tariffs[t] for t in range(T))` (source lines 192 and 228). -/
def dotCost (xs tariffs : List ℚ) (T : Nat) : ℚ :=
  ((List.range T).map (fun t => xs.getD t 0 * tariffs.getD t 0)).sum

/-- `np.maximum(load - solar - wind, 0)` elementwise (source line 227). -/
def net_load (load solar wind : List ℚ) : List ℚ :=
  List.zipWith (fun x w => max (x - w) 0) (List.zipWith (fun l s => l - s) load solar) wind

/-- Python builtin `max` over a numpy array (source lines 197-198, 316);
the source raises on an empty array, so theorems about this function
carry a nonemptiness hypothesis where it matters. -/
def listMax (xs : List ℚ) : ℚ :=
  xs.foldl max (xs.headD 0)

/-- `[i for i, t in enumerate(tariffs) if t >= settings.summer_peak_rate * 0.9]`
(source line 250; same predicate as the peak-constraint test on line 165). -/
def peakHours (s : Settings) (tariffs : List ℚ) : List Nat :=
  (List.range tariffs.length).filter (fun i => s.summer_peak_rate * (9/10) ≤ tariffs.getD i 0)

/-- `[i for i, t in enumerate(tariffs) if t <= settings.summer_off_peak_rate * 1.1]`
(source line 284). -/
def offPeakHours (s : Settings) (tariffs : List ℚ) : List Nat :=
  (List.range tariffs.length).filter (fun i => tariffs.getD i 0 ≤ s.summer_off_peak_rate * (11/10))

/-- `sum(load[h] for h in peak_hours)` (source line 252). -/
def peak_load_sum (s : Settings) (load tariffs : List ℚ) : ℚ :=
  ((peakHours s tariffs).map (fun h => load.getD h 0)).sum

/-- `sum(grid[h] for h in peak_hours)` (source line 253). -/
def peak_grid_sum (s : Settings) (grid tariffs : List ℚ) : ℚ :=
  ((peakHours s tariffs).map (fun h => grid.getD h 0)).sum

/-- Recommendation rule 1, peak-period grid reduction (source lines 249-258):
fires when peak hours exist and `peak_grid < peak_load * 0.8`. -/
def rule1 (s : Settings) (load grid tariffs : List ℚ) : List Recommendation :=
  if peakHours s tariffs = [] then []
  else if peak_grid_sum s grid tariffs < peak_load_sum s load tariffs * (8/10) then
    [Recommendation.peakReduction ((peakHours s tariffs).headD 0)
      ((peakHours s tariffs).getLastD 0 + 1)
      ((peak_load_sum s load tariffs - peak_grid_sum s grid tariffs)
        / peak_load_sum s load tariffs * 100)]
  else []

/-- Recommendation rule 2, battery discharge contribution (source lines 260-265):
`total_discharge = sum(max(-b, 0) for b in battery)`; fires when positive. -/
def rule2 (battery : List ℚ) : List Recommendation :=
  if 0 < (battery.map (fun b => max (-b) 0)).sum then
    [Recommendation.batteryContribution ((battery.map (fun b => max (-b) 0)).sum)]
  else []

/-- Recommendation rule 3, solar utilization (source lines 267-275):
fires only when `sum(solar) > 0`; utilization is
`sum(min(s, l) for s, l in zip(solar, load)) / sum(solar) * 100`. -/
def rule3 (load solar : List ℚ) : List Recommendation :=
  if 0 < solar.sum then
    [Recommendation.solarUtilization ((List.zipWith min solar load).sum / solar.sum * 100)
      (decide ((List.zipWith min solar load).sum / solar.sum * 100 < 80))]
  else []

/-- Recommendation rule 4, peak shaving magnitude (source lines 277-281):
fires when `peak_reduction > 5`. -/
def rule4 (peak_reduction : ℚ) : List Recommendation :=
  if 5 < peak_reduction then [Recommendation.peakShaving peak_reduction] else []

/-- Recommendation rule 5, off-peak charging (source lines 283-291):
fires when off-peak hours exist and the total positive battery schedule
over in-range off-peak hours is positive. -/
def rule5 (s : Settings) (battery tariffs : List ℚ) : List Recommendation :=
  if offPeakHours s tariffs = [] then []
  else if 0 < (((offPeakHours s tariffs).filter (fun h => h < battery.length)).map
      (fun h => max (battery.getD h 0) 0)).sum then
    [Recommendation.offPeakCharging ((offPeakHours s tariffs).headD 0)
      ((offPeakHours s tariffs).getLastD 0 + 1)
      ((((offPeakHours s tariffs).filter (fun h => h < battery.length)).map
        (fun h => max (battery.getD h 0) 0)).sum)]
  else []

/-- `return recommendations if recommendations else [default]` (source line 293). -/
def nonEmptyOr (recs : List Recommendation) : List Recommendation :=
  if recs = [] then [Recommendation.defaultEntry] else recs

/-- `TOUOptimizer._generate_recommendations` (source lines 243-293):
the five rules are evaluated in order, each appending zero or one entry;
a default entry is returned when none fires. -/
def generate_recommendations (s : Settings) (load solar grid battery tariffs : List ℚ)
    (peak_reduction : ℚ) : List Recommendation :=
  nonEmptyOr (rule1 s load grid tariffs ++ rule2 battery ++ rule3 load solar
    ++ rule4 peak_reduction ++ rule5 s battery tariffs)

/-- `TOUOptimizer._baseline_result` (source lines 223-241). -/
def baseline_result (load solar wind tariffs : List ℚ) : OptimizationResult :=
  { status := "Baseline"
  , total_cost := dotCost (net_load load solar wind) tariffs load.length
  , baseline_cost := dotCost (net_load load solar wind) tariffs load.length
  , savings := 0
  , savings_percent := 0
  , battery_schedule := List.replicate load.length 0
  , grid_consumption := net_load load solar wind
  , solar_utilization := List.zipWith min solar load
  , peak_reduction := 0
  , recommendations := [Recommendation.installStorage] }

/-- `TOUOptimizer.optimize` (source lines 68-221).  The construction and
solving of the MILP is external (`pulp`); its reported status and variable
values arrive as `out`.  `pulpAvailable` models `PULP_AVAILABLE`.
Control flow: no solver backend → baseline (lines 87-89); solver status
not Optimal → baseline (lines 175-177); otherwise extract schedules and
compute the derived metrics (lines 179-221). -/
def optimize (s : Settings) (pulpAvailable : Bool) (out : SolverOutcome)
    (load_forecast solar_forecast wind_forecast tariffs : List ℚ) : OptimizationResult :=
  if !pulpAvailable then
    baseline_result load_forecast solar_forecast wind_forecast tariffs
  else if out.status ≠ "Optimal" then
    baseline_result load_forecast solar_forecast wind_forecast tariffs
  else
    { status := out.status
    , total_cost := out.objective
    , baseline_cost := dotCost load_forecast tariffs load_forecast.length
    , savings := dotCost load_forecast tariffs load_forecast.length - out.objective
    , savings_percent :=
        if 0 < dotCost load_forecast tariffs load_forecast.length then
          (dotCost load_forecast tariffs load_forecast.length - out.objective)
            / dotCost load_forecast tariffs load_forecast.length * 100
        else 0
    , battery_schedule := (List.range load_forecast.length).map
        (fun t => out.battery_charge.getD t 0 - out.battery_discharge.getD t 0)
    , grid_consumption := (List.range load_forecast.length).map (fun t => out.grid_buy.getD t 0)
    , solar_utilization := (List.range load_forecast.length).map (fun t => out.solar_used.getD t 0)
    , peak_reduction :=
        if 0 < listMax load_forecast then
          (listMax load_forecast
              - listMax ((List.range load_forecast.length).map (fun t => out.grid_buy.getD t 0)))
            / listMax load_forecast * 100
        else 0
    , recommendations := generate_recommendations s load_forecast solar_forecast
        ((List.range load_forecast.length).map (fun t => out.grid_buy.getD t 0))
        ((List.range load_forecast.length).map
          (fun t => out.battery_charge.getD t 0 - out.battery_discharge.getD t 0))
        tariffs
        (if 0 < listMax load_forecast then
          (listMax load_forecast
              - listMax ((List.range load_forecast.length).map (fun t => out.grid_buy.getD t 0)))
            / listMax load_forecast * 100
        else 0) }

/-- `load_max_mw = np.max(load_raw) if np.max(load_raw) > 0 else 1`
(source line 316). -/
def load_max_mw (load_raw : List ℚ) : ℚ :=
  if 0 < listMax load_raw then listMax load_raw else 1

/-- `scale_factor = (max_contract * 0.8) / (load_max_mw * 1000)`
(source lines 317-318). -/
def scale_factor (s : Settings) (load_raw : List ℚ) : ℚ :=
  s.max_contract_capacity_kw * (8/10) / (load_max_mw load_raw * 1000)

/-- `series * 1000 * scale_factor` applied elementwise, as on source
lines 320-322 for load, solar and wind. -/
def scaleSeries (s : Settings) (load_raw xs : List ℚ) : List ℚ :=
  xs.map (fun x => x * 1000 * scale_factor s load_raw)

/-- The mutable optimizer configuration touched by `simulate_scenarios`
(source lines 368-372, 388-389): `self.battery_capacity`, `self.max_contract`. -/
structure OptConfig where
  battery_capacity : ℚ
  max_contract : ℚ
deriving DecidableEq

/-- A scenario override set: `scenario.get('battery_capacity', current)`,
`scenario.get('max_contract', current)` (source lines 371-372). -/
structure Scenario where
  battery_capacity : Option ℚ
  max_contract : Option ℚ
deriving DecidableEq

/-- Applying a scenario's overrides to the current configuration
(source lines 371-372). -/
def applyScenario (cfg : OptConfig) (sc : Scenario) : OptConfig :=
  { battery_capacity := sc.battery_capacity.getD cfg.battery_capacity
  , max_contract := sc.max_contract.getD cfg.max_contract }

/-- `TOUOptimizer.simulate_scenarios` (source lines 350-391), with the
inner `optimize_schedule` call abstracted as `run` (it may raise, modelled
by `Except`).  Per scenario: snapshot, apply overrides, run, append the
result together with the overridden config (lines 380-385 record
`self.battery_capacity` before restoration), restore (lines 388-389).
The source has no try/finally: an exception from `run` propagates with
the overrides still applied.  Returns the final configuration paired with
the results (or the propagated error). -/
def simulate_scenarios {R : Type} (run : OptConfig → Except Unit R) :
    OptConfig → List Scenario → OptConfig × Except Unit (List (OptConfig × R))
  | cfg, [] => (cfg, Except.ok [])
  | cfg, sc :: rest =>
      match run (applyScenario cfg sc) with
      | Except.error e => (applyScenario cfg sc, Except.error e)
      | Except.ok r =>
          match simulate_scenarios run cfg rest with
          | (cfgF, Except.ok rs) => (cfgF, Except.ok ((applyScenario cfg sc, r) :: rs))
          | (cfgF, Except.error e) => (cfgF, Except.error e)

/-- A solver outcome reporting Optimal with no variable values set
(every `varValue` reads as 0) and objective 0. -/
def outOptimal : SolverOutcome :=
  { status := "Optimal", grid_buy := [], battery_charge := [], battery_discharge := []
  , solar_used := [], objective := 0 }

/-- A solver outcome reporting Infeasible. -/
def outInfeasible : SolverOutcome :=
  { status := "Infeasible", grid_buy := [], battery_charge := [], battery_discharge := []
  , solar_used := [], objective := 0 }

/-- Every recommendation list produced by `_generate_recommendations` is
nonempty: either some rule fired, or the default entry is returned. -/
theorem generate_recommendations_ne_nil (s : Settings) (load solar grid battery tariffs : List ℚ)
    (pr : ℚ) : generate_recommendations s load solar grid battery tariffs pr ≠ [] := by
  unfold generate_recommendations nonEmptyOr
  split_ifs with h
  · simp
  · exact h

/-- Reduction of `optimize` on the Optimal path: with a solver backend
and a solver status of "Optimal", the result is the record built on
source lines 179-221. -/
theorem optimize_optimal_branch (s : Settings) (out : SolverOutcome)
    (load_forecast solar_forecast wind_forecast tariffs : List ℚ)
    (hst : out.status = "Optimal") :
    optimize s true out load_forecast solar_forecast wind_forecast tariffs =
      { status := out.status
      , total_cost := out.objective
      , baseline_cost := dotCost load_forecast tariffs load_forecast.length
      , savings := dotCost load_forecast tariffs load_forecast.length - out.objective
      , savings_percent :=
          if 0 < dotCost load_forecast tariffs load_forecast.length then
            (dotCost load_forecast tariffs load_forecast.length - out.objective)
              / dotCost load_forecast tariffs load_forecast.length * 100
          else 0
      , battery_schedule := (List.range load_forecast.length).map
          (fun t => out.battery_charge.getD t 0 - out.battery_discharge.getD t 0)
      , grid_consumption := (List.range load_forecast.length).map (fun t => out.grid_buy.getD t 0)
      , solar_utilization := (List.range load_forecast.length).map (fun t => out.solar_used.getD t 0)
      , peak_reduction :=
          if 0 < listMax load_forecast then
            (listMax load_forecast
                - listMax ((List.range load_forecast.length).map (fun t => out.grid_buy.getD t 0)))
              / listMax load_forecast * 100
          else 0
      , recommendations := generate_recommendations s load_forecast solar_forecast
          ((List.range load_forecast.length).map (fun t => out.grid_buy.getD t 0))
          ((List.range load_forecast.length).map
            (fun t => out.battery_charge.getD t 0 - out.battery_discharge.getD t 0))
          tariffs
          (if 0 < listMax load_forecast then
            (listMax load_forecast
                - listMax ((List.range load_forecast.length).map (fun t => out.grid_buy.getD t 0)))
              / listMax load_forecast * 100
          else 0) } := by
  unfold optimize
  rw [if_neg (by simp), if_neg (not_not.mpr hst)]

/-- Reduction of `optimize` on the degraded paths: with no solver backend
or a solver status other than "Optimal", the result is `_baseline_result`. -/
theorem optimize_degraded_branch (s : Settings) (avail : Bool) (out : SolverOutcome)
    (load solar wind tariffs : List ℚ)
    (h : avail = false ∨ out.status ≠ "Optimal") :
    optimize s avail out load solar wind tariffs = baseline_result load solar wind tariffs := by
  rcases h with h | h
  · rw [h]
    rfl
  · cases avail with
    | false => rfl
    | true =>
        unfold optimize
        rw [if_neg (by simp), if_pos h]

/-- C1: the baseline cost computed on the Optimal path of `optimize`
(line 192, `sum(load[t]*tariffs[t])`) and the cost computed by the
fallback `_baseline_result` (lines 227-228,
`sum(max(load[t]-solar[t]-wind[t],0)*tariffs[t])`) are NOT the same
function: with load=[10], solar=[5], wind=[0], tariff=[2] the Optimal
path reports baseline_cost 20 while the baseline formula yields 10. -/
theorem c1_baseline_cost_formulas_differ :
    (optimize defaultSettings true outOptimal [10] [5] [0] [2]).baseline_cost = 20 ∧
    (baseline_result [10] [5] [0] [2]).baseline_cost = 10 ∧
    (optimize defaultSettings true outOptimal [10] [5] [0] [2]).baseline_cost ≠
      (baseline_result [10] [5] [0] [2]).baseline_cost := by
  have h1 : (optimize defaultSettings true outOptimal [10] [5] [0] [2]).baseline_cost = 20 := by
    rw [optimize_optimal_branch defaultSettings outOptimal [10] [5] [0] [2] rfl]
    norm_num [dotCost, List.range_succ]
  have h2 : (baseline_result [10] [5] [0] [2]).baseline_cost = 10 := by
    norm_num [baseline_result, dotCost, net_load, List.range_succ]
  exact ⟨h1, h2, by rw [h1, h2]; norm_num⟩

/-- C2 counterexample: with T=0 input, `optimize` is not rejected with an
`InsufficientData` error (no such error exists in the code); it runs the
fallback computation and returns a complete `OptimizationResult` with
status "Baseline". -/
theorem c2_counterexample_empty_input_returns_result :
    (optimize defaultSettings false outOptimal [] [] [] []).status = "Baseline" ∧
    (optimize defaultSettings false outOptimal [] [] [] []).recommendations =
      [Recommendation.installStorage] := by
  exact ⟨rfl, rfl⟩

/-- C2 amended: `optimize` performs no input validation; on T=0 input
(here with no solver backend available) it returns the baseline
`OptimizationResult` with status "Baseline", zero costs and empty
schedules, instead of rejecting the call. -/
theorem c2_amended_no_input_validation (s : Settings) (out : SolverOutcome) :
    optimize s false out [] [] [] [] =
      { status := "Baseline", total_cost := 0, baseline_cost := 0, savings := 0
      , savings_percent := 0, battery_schedule := [], grid_consumption := []
      , solar_utilization := [], peak_reduction := 0
      , recommendations := [Recommendation.installStorage] } := rfl

/-- C3: whenever the solver backend is unavailable or the solver status
is anything other than "Optimal", `optimize` returns exactly the
`_baseline_result` output, whose status is "Baseline". -/
theorem c3_degrades_to_baseline (s : Settings) (avail : Bool) (out : SolverOutcome)
    (load solar wind tariffs : List ℚ)
    (h : avail = false ∨ out.status ≠ "Optimal") :
    optimize s avail out load solar wind tariffs = baseline_result load solar wind tariffs ∧
    (optimize s avail out load solar wind tariffs).status = "Baseline" := by
  have heq : optimize s avail out load solar wind tariffs =
      baseline_result load solar wind tariffs :=
    optimize_degraded_branch s avail out load solar wind tariffs h
  exact ⟨heq, by rw [heq]; rfl⟩

/-- C3 witness: a concrete Infeasible solve degrades to the baseline result. -/
theorem c3_witness :
    (true = false ∨ outInfeasible.status ≠ "Optimal") ∧
    (optimize defaultSettings true outInfeasible [1] [0] [0] [2] =
        baseline_result [1] [0] [0] [2] ∧
      (optimize defaultSettings true outInfeasible [1] [0] [0] [2]).status = "Baseline") :=
  ⟨Or.inr (by decide),
   c3_degrades_to_baseline defaultSettings true outInfeasible [1] [0] [0] [2]
     (Or.inr (by decide))⟩

/-- C7: every result of `optimize` whose status is "Baseline" has
savings 0, savings_percent 0, and total_cost equal to baseline_cost. -/
theorem c7_baseline_degeneracy (s : Settings) (avail : Bool) (out : SolverOutcome)
    (load solar wind tariffs : List ℚ)
    (h : (optimize s avail out load solar wind tariffs).status = "Baseline") :
    (optimize s avail out load solar wind tariffs).savings = 0 ∧
    (optimize s avail out load solar wind tariffs).savings_percent = 0 ∧
    (optimize s avail out load solar wind tariffs).total_cost =
      (optimize s avail out load solar wind tariffs).baseline_cost := by
  by_cases h2 : avail = false ∨ out.status ≠ "Optimal"
  · have heq := optimize_degraded_branch s avail out load solar wind tariffs h2
    rw [heq]
    exact ⟨rfl, rfl, rfl⟩
  · exfalso
    push_neg at h2
    obtain ⟨ha, hst⟩ := h2
    have ha1 : avail = true := by
      cases avail
      · exact absurd rfl ha
      · rfl
    rw [ha1, optimize_optimal_branch s out load solar wind tariffs hst] at h
    have h3 : out.status = "Baseline" := h
    rw [hst] at h3
    exact absurd h3 (by decide)

/-- C7 witness: a concrete Baseline result (no solver backend) has the
degenerate savings fields. -/
theorem c7_witness :
    (optimize defaultSettings false outOptimal [1] [0] [0] [2]).status = "Baseline" ∧
    ((optimize defaultSettings false outOptimal [1] [0] [0] [2]).savings = 0 ∧
     (optimize defaultSettings false outOptimal [1] [0] [0] [2]).savings_percent = 0 ∧
     (optimize defaultSettings false outOptimal [1] [0] [0] [2]).total_cost =
       (optimize defaultSettings false outOptimal [1] [0] [0] [2]).baseline_cost) :=
  ⟨rfl, c7_baseline_degeneracy defaultSettings false outOptimal [1] [0] [0] [2] rfl⟩

/-- C8: the recommendations list is never empty — in every branch of
`optimize`, in every output of `_generate_recommendations`, and in the
`_baseline_result` fallback. -/
theorem c8_recommendations_nonempty (s : Settings) (avail : Bool) (out : SolverOutcome)
    (load solar wind tariffs grid battery : List ℚ) (pr : ℚ) :
    1 ≤ (optimize s avail out load solar wind tariffs).recommendations.length ∧
    1 ≤ (generate_recommendations s load solar grid battery tariffs pr).length ∧
    1 ≤ (baseline_result load solar wind tariffs).recommendations.length := by
  refine ⟨?_, ?_, by rfl⟩
  · by_cases h2 : avail = false ∨ out.status ≠ "Optimal"
    · rw [optimize_degraded_branch s avail out load solar wind tariffs h2]
      exact Nat.le.refl
    · push_neg at h2
      obtain ⟨ha, hst⟩ := h2
      have ha1 : avail = true := by
        cases avail
        · exact absurd rfl ha
        · rfl
      rw [ha1, optimize_optimal_branch s out load solar wind tariffs hst]
      exact List.length_pos.mpr (generate_recommendations_ne_nil s load solar _ _ tariffs _)
  · exact List.length_pos.mpr (generate_recommendations_ne_nil s load solar grid battery tariffs pr)

/-- C9: in the megawatt-to-kilowatt forecast scaling of
`optimize_schedule`, `load_max_mw` is always positive (so the divisor
`load_max_mw * 1000` is nonzero), the scale factor is
`max_contract * 0.8 / (load_max_mw * 1000)`, and every series value is
multiplied by `1000 * scale_factor`. -/
theorem c9_forecast_scaling (s : Settings) (load_raw xs : List ℚ) (h : load_raw ≠ []) :
    0 < load_max_mw load_raw ∧
    load_max_mw load_raw * 1000 ≠ 0 ∧
    scale_factor s load_raw =
      s.max_contract_capacity_kw * (8/10) / (load_max_mw load_raw * 1000) ∧
    scaleSeries s load_raw xs = xs.map (fun x => x * 1000 * scale_factor s load_raw) := by
  have hpos : 0 < load_max_mw load_raw := by
    unfold load_max_mw
    split_ifs with h1
    · exact h1
    · norm_num
  exact ⟨hpos, mul_ne_zero (ne_of_gt hpos) (by norm_num), rfl, rfl⟩

/-- C9 witness: the scaling facts at the concrete series [2] with input [3]. -/
theorem c9_witness :
    ([(2 : ℚ)] ≠ []) ∧
    (0 < load_max_mw [2] ∧
     load_max_mw [2] * 1000 ≠ 0 ∧
     scale_factor defaultSettings [2] =
       defaultSettings.max_contract_capacity_kw * (8/10) / (load_max_mw [2] * 1000) ∧
     scaleSeries defaultSettings [2] [3] =
       [3].map (fun x => x * 1000 * scale_factor defaultSettings [2])) :=
  ⟨by decide, c9_forecast_scaling defaultSettings [2] [3] (by decide)⟩

/-- C10: in the Optimal path of `optimize`, the derived metrics are
division-guarded — a nonpositive baseline cost forces savings_percent 0,
a positive baseline cost makes savings_percent the guarded quotient with
a provably nonzero divisor, and a nonpositive load maximum forces
peak_reduction 0. -/
theorem c10_division_guards (s : Settings) (out : SolverOutcome)
    (load solar wind tariffs : List ℚ) (hst : out.status = "Optimal") :
    ((optimize s true out load solar wind tariffs).baseline_cost ≤ 0 →
      (optimize s true out load solar wind tariffs).savings_percent = 0) ∧
    (0 < (optimize s true out load solar wind tariffs).baseline_cost →
      (optimize s true out load solar wind tariffs).savings_percent =
        (optimize s true out load solar wind tariffs).savings
          / (optimize s true out load solar wind tariffs).baseline_cost * 100 ∧
      (optimize s true out load solar wind tariffs).baseline_cost ≠ 0) ∧
    (listMax load ≤ 0 → (optimize s true out load solar wind tariffs).peak_reduction = 0) := by
  rw [optimize_optimal_branch s out load solar wind tariffs hst]
  dsimp only
  refine ⟨fun hb => ?_, fun hb => ?_, fun hb => ?_⟩
  · rw [if_neg (not_lt.mpr hb)]
  · exact ⟨by rw [if_pos hb], ne_of_gt hb⟩
  · rw [if_neg (not_lt.mpr hb)]

/-- C10 witness: the division guards at a concrete Optimal outcome. -/
theorem c10_witness :
    outOptimal.status = "Optimal" ∧
    (((optimize defaultSettings true outOptimal [10] [5] [0] [2]).baseline_cost ≤ 0 →
        (optimize defaultSettings true outOptimal [10] [5] [0] [2]).savings_percent = 0) ∧
     (0 < (optimize defaultSettings true outOptimal [10] [5] [0] [2]).baseline_cost →
        (optimize defaultSettings true outOptimal [10] [5] [0] [2]).savings_percent =
          (optimize defaultSettings true outOptimal [10] [5] [0] [2]).savings
            / (optimize defaultSettings true outOptimal [10] [5] [0] [2]).baseline_cost * 100 ∧
        (optimize defaultSettings true outOptimal [10] [5] [0] [2]).baseline_cost ≠ 0) ∧
     (listMax [(10 : ℚ)] ≤ 0 →
        (optimize defaultSettings true outOptimal [10] [5] [0] [2]).peak_reduction = 0)) :=
  ⟨rfl, c10_division_guards defaultSettings outOptimal [10] [5] [0] [2] rfl⟩

/-- Discriminator for the rule-1 peak-period reduction observation. -/
def isPeakReduction : Recommendation → Bool
  | Recommendation.peakReduction _ _ _ => true
  | _ => false

/-- Discriminator for the rule-3 solar-utilization observation. -/
def isSolarUtilization : Recommendation → Bool
  | Recommendation.solarUtilization _ _ => true
  | _ => false

theorem rule2_any_peak (battery : List ℚ) :
    (rule2 battery).any isPeakReduction = false := by
  unfold rule2
  split_ifs <;> rfl

theorem rule3_any_peak (load solar : List ℚ) :
    (rule3 load solar).any isPeakReduction = false := by
  unfold rule3
  split_ifs <;> rfl

theorem rule4_any_peak (pr : ℚ) :
    (rule4 pr).any isPeakReduction = false := by
  unfold rule4
  split_ifs <;> rfl

theorem rule5_any_peak (s : Settings) (battery tariffs : List ℚ) :
    (rule5 s battery tariffs).any isPeakReduction = false := by
  unfold rule5
  split_ifs <;> rfl

theorem rule1_countP_solar (s : Settings) (load grid tariffs : List ℚ) :
    (rule1 s load grid tariffs).countP isSolarUtilization = 0 := by
  unfold rule1
  split_ifs <;> rfl

theorem rule2_countP_solar (battery : List ℚ) :
    (rule2 battery).countP isSolarUtilization = 0 := by
  unfold rule2
  split_ifs <;> rfl

theorem rule4_countP_solar (pr : ℚ) :
    (rule4 pr).countP isSolarUtilization = 0 := by
  unfold rule4
  split_ifs <;> rfl

theorem rule5_countP_solar (s : Settings) (battery tariffs : List ℚ) :
    (rule5 s battery tariffs).countP isSolarUtilization = 0 := by
  unfold rule5
  split_ifs <;> rfl

/-- With the default settings, a single hour at tariff 10 NTD/kWh is a
peak hour (10 ≥ 9.34 · 0.9). -/
theorem peakHours_single_ten : peakHours defaultSettings [10] = [0] := by
  norm_num [peakHours, defaultSettings, List.range_succ, List.range_zero, List.filter_cons,
    List.getD_cons_zero]

theorem peakHours_single_ten_ne : peakHours defaultSettings [10] ≠ [] := by
  rw [peakHours_single_ten]
  exact List.cons_ne_nil _ _

theorem peak_load_sum_hundred_pos : 0 < peak_load_sum defaultSettings [100] [10] := by
  norm_num [peak_load_sum, peakHours_single_ten]

/-- With the default settings, a single hour at tariff 10 NTD/kWh is not
an off-peak hour (10 > 2.29 · 1.1). -/
theorem offPeakHours_single_ten : offPeakHours defaultSettings [10] = [] := by
  norm_num [offPeakHours, defaultSettings, List.filter_cons]

/-- C4 counterexample: when a scenario's optimization raises, the
configuration is NOT restored — there is no try/finally, so the scenario's
overrides are still applied after `simulate_scenarios` propagates the
exception (battery capacity stays 50 instead of the original 100). -/
theorem c4_counterexample_exception_skips_restore :
    (simulate_scenarios (fun _ => (Except.error () : Except Unit Unit))
        { battery_capacity := 100, max_contract := 500 }
        [{ battery_capacity := some 50, max_contract := none }]).1 ≠
      { battery_capacity := 100, max_contract := 500 } := by
  intro hcon
  have h50 : (50 : ℚ) = 100 := congrArg OptConfig.battery_capacity hcon
  norm_num at h50

/-- C4 amended: when every scenario's optimization returns normally, the
configuration after `simulate_scenarios` equals the pre-call configuration,
and each scenario is optimized under exactly the initial configuration
with its own overrides applied — no scenario's overrides leak into a
later scenario. -/
theorem c4_amended_restore_on_normal_return {R : Type} (f : OptConfig → R)
    (cfg : OptConfig) (scs : List Scenario) :
    simulate_scenarios (fun c => Except.ok (f c)) cfg scs =
      (cfg, Except.ok (scs.map (fun sc => (applyScenario cfg sc, f (applyScenario cfg sc))))) := by
  induction scs with
  | nil => rfl
  | cons sc rest ih => simp [simulate_scenarios, ih]

/-- C5 counterexample: with one peak hour, peak load 100 and peak grid 90
(a 10% ≥ 5% reduction, so the claim says the observation is emitted), the
code emits no peak-period reduction observation, because its threshold is
`peak_grid < peak_load * 0.8`, not a 5% reduction. -/
theorem c5_counterexample_five_percent_not_emitted :
    (generate_recommendations defaultSettings [100] [0] [90] [0] [10] 0).any isPeakReduction
        = false ∧
    peak_grid_sum defaultSettings [90] [10] ≤
      (95/100) * peak_load_sum defaultSettings [100] [10] ∧
    peakHours defaultSettings [10] ≠ [] ∧
    0 < peak_load_sum defaultSettings [100] [10] := by
  refine ⟨?_, ?_, peakHours_single_ten_ne, peak_load_sum_hundred_pos⟩
  · norm_num [generate_recommendations, nonEmptyOr, rule1, rule2, rule3, rule4, rule5,
      peakHours_single_ten, offPeakHours_single_ten, peak_load_sum, peak_grid_sum,
      isPeakReduction]
  · norm_num [peak_load_sum, peak_grid_sum, peakHours_single_ten]

/-- C5 amended: when at least one peak hour exists and the total peak-hour
load is positive, the peak-period reduction observation (rule 1) is
emitted if and only if peak-hour grid import is strictly below 80% of the
peak-hour load (i.e. more than a 20% reduction), not 5%. -/
theorem c5_amended_rule1_threshold (s : Settings) (load solar grid battery tariffs : List ℚ)
    (pr : ℚ) (h1 : peakHours s tariffs ≠ [])
    (h2 : 0 < peak_load_sum s load tariffs) :
    ((generate_recommendations s load solar grid battery tariffs pr).any isPeakReduction = true
      ↔ peak_grid_sum s grid tariffs < peak_load_sum s load tariffs * (8/10)) := by
  unfold generate_recommendations nonEmptyOr
  split_ifs with hempty
  · have h1e : rule1 s load grid tariffs = [] :=
      (List.append_eq_nil.mp
        (List.append_eq_nil.mp
          (List.append_eq_nil.mp (List.append_eq_nil.mp hempty).1).1).1).1
    have hc : ¬ (peak_grid_sum s grid tariffs < peak_load_sum s load tariffs * (8/10)) := by
      intro hcon
      unfold rule1 at h1e
      rw [if_neg h1, if_pos hcon] at h1e
      exact List.cons_ne_nil _ _ h1e
    simp [isPeakReduction, hc]
  · simp only [List.any_append, rule2_any_peak, rule3_any_peak, rule4_any_peak,
      rule5_any_peak, Bool.or_false]
    unfold rule1
    rw [if_neg h1]
    split_ifs with hc
    · simp [isPeakReduction, hc]
    · simp [hc]

/-- C5 witness: at one peak hour with load 100 and grid 50, rule 1 does
fire and the iff holds. -/
theorem c5_witness :
    (peakHours defaultSettings [10] ≠ []) ∧
    (0 < peak_load_sum defaultSettings [100] [10]) ∧
    ((generate_recommendations defaultSettings [100] [0] [50] [0] [10] 0).any isPeakReduction
        = true ↔
      peak_grid_sum defaultSettings [50] [10] <
        peak_load_sum defaultSettings [100] [10] * (8/10)) :=
  ⟨peakHours_single_ten_ne, peak_load_sum_hundred_pos,
   c5_amended_rule1_threshold defaultSettings [100] [0] [50] [0] [10] 0
     peakHours_single_ten_ne peak_load_sum_hundred_pos⟩

/-- C6 counterexample: with a zero solar forecast the claim says one
solar-utilization observation is still emitted (with utilization 0), but
the code emits none: the rule is guarded by `solar_available > 0`. -/
theorem c6_counterexample_zero_solar_no_observation :
    (generate_recommendations defaultSettings [100] [0] [0] [0] [10] 0).countP isSolarUtilization
        = 0 ∧
    List.sum [(0 : ℚ)] = 0 := by
  constructor
  · norm_num [generate_recommendations, nonEmptyOr, rule1, rule2, rule3, rule4, rule5,
      peakHours_single_ten, offPeakHours_single_ten, peak_load_sum, peak_grid_sum,
      isSolarUtilization]
  · norm_num

/-- C6 amended: the solar-utilization observation is emitted exactly once
when the total solar forecast is positive, and not at all when it is not;
the rest of the claim (the storage-expansion suggestion below 80%
utilization, the adequacy statement otherwise) applies only to the
emitted observation. -/
theorem c6_amended_solar_rule_guarded (s : Settings) (load solar grid battery tariffs : List ℚ)
    (pr : ℚ) :
    (generate_recommendations s load solar grid battery tariffs pr).countP isSolarUtilization =
      if 0 < solar.sum then 1 else 0 := by
  unfold generate_recommendations nonEmptyOr
  by_cases hempty : rule1 s load grid tariffs ++ rule2 battery ++ rule3 load solar
      ++ rule4 pr ++ rule5 s battery tariffs = []
  · rw [if_pos hempty]
    have h3e : rule3 load solar = [] :=
      (List.append_eq_nil.mp
        (List.append_eq_nil.mp (List.append_eq_nil.mp hempty).1).1).2
    have hc : ¬ 0 < solar.sum := by
      intro hcon
      unfold rule3 at h3e
      rw [if_pos hcon] at h3e
      exact List.cons_ne_nil _ _ h3e
    rw [if_neg hc]
    rfl
  · rw [if_neg hempty]
    simp only [List.countP_append, rule1_countP_solar, rule2_countP_solar,
      rule4_countP_solar, rule5_countP_solar]
    unfold rule3
    by_cases hc : 0 < solar.sum
    · rw [if_pos hc, if_pos hc]
      simp [List.countP_cons, isSolarUtilization]
    · rw [if_neg hc, if_neg hc]
      simp [isSolarUtilization]

end EcoGrid
